import Mathlib

/-!
Shallow embedding of `src/geo.cpp` (namespace `geo`): three shape classes
(`circle`, `square`, `equilateral_triangle`) with validating constructors,
an abstract `shape` interface with one method `get_circumference`, and a
`scene` aggregating shared shape references and summing their circumferences.

Modelling choices:
* a C++ `double` supplied as a dimension is either NaN or a finite value;
  every finite double is a rational number, so finite values are modelled by
  `ℚ` (`Fl.fin`), and NaN by `Fl.nan`.  IEEE comparison semantics are kept:
  any comparison involving NaN is false (`Fl.blt`).
* `get_circumference` results live in `Option ℝ`: `none` is NaN (NaN
  propagates through `*` and `+` as in IEEE 754), `some v` an ideal real
  value.  Real arithmetic idealises the floating-point arithmetic of the
  source; the spec states its numeric properties up to floating-point
  tolerance, which the ideal-real equalities imply.
* a constructor that throws is an `Except.error`: no object is produced.
* `std::vector<std::shared_ptr<shape>>` is a `List shape` of immutable
  values: shapes have no mutating operation in the source, so a shared
  reference is observationally a value.
-/

namespace geo

/-- Dimension values as supplied to the constructors: NaN or a finite
double, the latter modelled as a rational number. -/
inductive Fl where
  | nan : Fl
  | fin : ℚ → Fl
  deriving DecidableEq

/-- Comparison `a < b` on doubles as used by the constructors' checks
(`if (r < 0)`): false whenever either operand is NaN, the rational order
otherwise. -/
def Fl.blt : Fl → Fl → Bool
  | Fl.fin a, Fl.fin b => decide (a < b)
  | _, _ => false

/-- Error class `dimension_smaller_than_zero : public std::logic_error`
(src/geo.cpp:13-16), carrying the human-readable message. -/
structure dimension_smaller_than_zero where
  msg : String
  deriving DecidableEq

/-- Class `circle` (src/geo.cpp:24-35): stores the radius in `r_`. -/
structure circle where
  r_ : Fl
  deriving DecidableEq

/-- Constructor `circle::circle(const double r)` (src/geo.cpp:28-32):
initialises `r_` with `r`, then throws `dimension_smaller_than_zero` when
`r < 0`; a throwing constructor produces no object. -/
def circle.make (r : Fl) : Except dimension_smaller_than_zero circle :=
  if Fl.blt r (Fl.fin 0) then
    Except.error ⟨"A circle must have a radius of at least 0."⟩
  else
    Except.ok ⟨r⟩

/-- Method `circle::get_circumference` (src/geo.cpp:34): returns
`8 * atan(1) * r_`; NaN input yields NaN. -/
noncomputable def circle.get_circumference : circle → Option ℝ
  | ⟨Fl.nan⟩ => none
  | ⟨Fl.fin x⟩ => some (8 * Real.arctan 1 * (x : ℝ))

/-- Class `square` (src/geo.cpp:37-48): stores the side in `side_`. -/
structure square where
  side_ : Fl
  deriving DecidableEq

/-- Constructor `square::square(const double side)` (src/geo.cpp:41-45). -/
def square.make (side : Fl) : Except dimension_smaller_than_zero square :=
  if Fl.blt side (Fl.fin 0) then
    Except.error ⟨"A square must have a length of at least 0."⟩
  else
    Except.ok ⟨side⟩

/-- Method `square::get_circumference` (src/geo.cpp:47): `4 * side_`. -/
noncomputable def square.get_circumference : square → Option ℝ
  | ⟨Fl.nan⟩ => none
  | ⟨Fl.fin x⟩ => some (4 * (x : ℝ))

/-- Class `equilateral_triangle` (src/geo.cpp:50-60). -/
structure equilateral_triangle where
  side_ : Fl
  deriving DecidableEq

/-- Constructor `equilateral_triangle::equilateral_triangle(const double
side)` (src/geo.cpp:54-58). -/
def equilateral_triangle.make (side : Fl) :
    Except dimension_smaller_than_zero equilateral_triangle :=
  if Fl.blt side (Fl.fin 0) then
    Except.error ⟨"An equilateral_triangle must have a length of at least 0."⟩
  else
    Except.ok ⟨side⟩

/-- Method `equilateral_triangle::get_circumference` (src/geo.cpp:59):
`3 * side_`. -/
noncomputable def equilateral_triangle.get_circumference :
    equilateral_triangle → Option ℝ
  | ⟨Fl.nan⟩ => none
  | ⟨Fl.fin x⟩ => some (3 * (x : ℝ))

/-- Abstract base `class shape` (src/geo.cpp:18-22) closed over its three
concrete variants in this repository; virtual dispatch of
`get_circumference` is the case split. -/
inductive shape where
  | circ : circle → shape
  | sq : square → shape
  | tri : equilateral_triangle → shape
  deriving DecidableEq

/-- Virtual method `shape::get_circumference` (src/geo.cpp:20): dispatches
to the concrete variant's implementation. -/
noncomputable def shape.get_circumference : shape → Option ℝ
  | shape.circ c => c.get_circumference
  | shape.sq s => s.get_circumference
  | shape.tri t => t.get_circumference

/-- IEEE addition on circumference values: NaN absorbs, otherwise real
addition. -/
noncomputable def addFl : Option ℝ → Option ℝ → Option ℝ
  | some a, some b => some (a + b)
  | _, _ => none

/-- Class `scene` (src/geo.cpp:62-86): an ordered sequence of shared shape
references (`std::vector<std::shared_ptr<shape>>`). -/
structure scene where
  shapes_ : List shape

/-- Method `scene::add_shape` (src/geo.cpp:66-70): `push_back`s the given
shape reference (upcast to `shape`) at the end of `shapes_`. -/
def scene.add_shape (sc : scene) (s : shape) : scene :=
  ⟨sc.shapes_ ++ [s]⟩

/-- Method `scene::get_circumference` (src/geo.cpp:72-85):
`std::accumulate` over `shapes_` starting from `0.0`, adding each
element's `get_circumference()` result left to right. -/
noncomputable def scene.get_circumference (sc : scene) : Option ℝ :=
  sc.shapes_.foldl (fun a b => addFl a b.get_circumference) (some 0)

/-- Executing the (non-const) method call `s->get_circumference()` as a
state transformer: the method body (src/geo.cpp:34,47,59) only reads the
stored dimension and writes no member, so the post-state is the receiver
unchanged. -/
noncomputable def shape.getCircRun (s : shape) : Option ℝ × shape :=
  (s.get_circumference, s)

/-- Executing the method call `sc.get_circumference()` on a scene as a
state transformer: the body (src/geo.cpp:72-85) accumulates over `shapes_`
without modifying it, so the post-state is the receiver unchanged. -/
noncomputable def scene.getCircRun (sc : scene) : Option ℝ × scene :=
  (sc.get_circumference, sc)

/-- Left fold written from the spec's words for comparison with
`scene.get_circumference`: fold the sequence left to right, starting from
accumulator `0.0`, adding each element's `get_circumference()` result in
sequence order. -/
noncomputable def specFoldSum : Option ℝ → List shape → Option ℝ
  | acc, [] => acc
  | acc, s :: rest => specFoldSum (addFl acc s.get_circumference) rest

/-! Helper lemmas shared by several claims. -/

/-- Adding two circumference values to an accumulator commutes, also in the
presence of NaN. -/
theorem addFl_right_comm (a x y : Option ℝ) :
    addFl (addFl a x) y = addFl (addFl a y) x := by
  cases a <;> cases x <;> cases y <;> simp [addFl, add_right_comm]

/-- Folding the accumulation step is right-commutative. -/
theorem accum_rightCommutative :
    RightCommutative (fun (a : Option ℝ) (b : shape) =>
      addFl a b.get_circumference) :=
  ⟨fun a x y => addFl_right_comm a x.get_circumference y.get_circumference⟩

/-- Unfolding of `specFoldSum` as a left fold. -/
theorem specFoldSum_eq_foldl (acc : Option ℝ) (l : List shape) :
    specFoldSum acc l
      = l.foldl (fun a b => addFl a b.get_circumference) acc := by
  induction l generalizing acc with
  | nil => rfl
  | cons s rest ih => simp [specFoldSum, List.foldl_cons, ih]

/-! Claims. -/

/-- C1: for each of the three constructors `circle`, `square`,
`equilateral_triangle` on a (finite) dimension `x`, construction fails
with the `dimension_smaller_than_zero` error iff `x` is strictly
negative; a failure produces no shape object (the result is an
`Except.error`, carrying no shape), and for `x >= 0` (including `0`)
construction succeeds and stores the dimension (the shapes have no
mutating operation, so the stored dimension is immutable). -/
theorem ctor_validation (x : ℚ) :
    ((∃ e, circle.make (Fl.fin x) = Except.error e) ↔ x < 0)
      ∧ (0 ≤ x → circle.make (Fl.fin x) = Except.ok ⟨Fl.fin x⟩)
      ∧ ((∃ e, square.make (Fl.fin x) = Except.error e) ↔ x < 0)
      ∧ (0 ≤ x → square.make (Fl.fin x) = Except.ok ⟨Fl.fin x⟩)
      ∧ ((∃ e, equilateral_triangle.make (Fl.fin x) = Except.error e) ↔ x < 0)
      ∧ (0 ≤ x →
          equilateral_triangle.make (Fl.fin x) = Except.ok ⟨Fl.fin x⟩) := by
  by_cases h : x < 0
  · simp [circle.make, square.make, equilateral_triangle.make, Fl.blt, h,
      not_le.mpr h]
  · simp [circle.make, square.make, equilateral_triangle.make, Fl.blt, h]

/-- Witness for C1 at the boundary dimension `0`: all three constructors
succeed and store `0`. -/
theorem ctor_validation_witness :
    circle.make (Fl.fin 0) = Except.ok ⟨Fl.fin 0⟩
      ∧ square.make (Fl.fin 0) = Except.ok ⟨Fl.fin 0⟩
      ∧ equilateral_triangle.make (Fl.fin 0) = Except.ok ⟨Fl.fin 0⟩ :=
  ⟨(ctor_validation 0).2.1 le_rfl, (ctor_validation 0).2.2.2.1 le_rfl,
    (ctor_validation 0).2.2.2.2.2 le_rfl⟩

/-- Construction from a nonnegative finite radius succeeds and stores it. -/
theorem circle_make_of_nonneg (x : ℚ) (hx : 0 ≤ x) :
    circle.make (Fl.fin x) = Except.ok ⟨Fl.fin x⟩ := by
  simp [circle.make, Fl.blt, not_lt.mpr hx]

/-- Construction from a nonnegative finite side succeeds and stores it. -/
theorem square_make_of_nonneg (x : ℚ) (hx : 0 ≤ x) :
    square.make (Fl.fin x) = Except.ok ⟨Fl.fin x⟩ := by
  simp [square.make, Fl.blt, not_lt.mpr hx]

/-- Construction from a nonnegative finite side succeeds and stores it. -/
theorem equilateral_triangle_make_of_nonneg (x : ℚ) (hx : 0 ≤ x) :
    equilateral_triangle.make (Fl.fin x) = Except.ok ⟨Fl.fin x⟩ := by
  simp [equilateral_triangle.make, Fl.blt, not_lt.mpr hx]

/-- C2: for every radius `x >= 0`, a successfully constructed circle's
`get_circumference()` is exactly `2 * pi * x` (the source computes
`8 * atan(1) * x` and `atan 1 = pi / 4`), hence in particular within the
spec's `1e-9` relative tolerance. -/
theorem circle_circumference (x : ℚ) (hx : 0 ≤ x) (c : circle)
    (hc : circle.make (Fl.fin x) = Except.ok c) :
    c.get_circumference = some (2 * Real.pi * (x : ℝ))
      ∧ ∃ v, c.get_circumference = some v
          ∧ |v - 2 * Real.pi * (x : ℝ)| ≤ 1e-9 * |2 * Real.pi * (x : ℝ)| := by
  have hkey : (8 : ℝ) * Real.arctan 1 * (x : ℝ) = 2 * Real.pi * (x : ℝ) := by
    rw [Real.arctan_one]; ring
  rw [circle_make_of_nonneg x hx] at hc
  obtain rfl := (Except.ok.injEq _ _).mp hc
  refine ⟨?_, 2 * Real.pi * (x : ℝ), ?_, ?_⟩
  · show some ((8 : ℝ) * Real.arctan 1 * (x : ℝ)) = _
    rw [hkey]
  · show some ((8 : ℝ) * Real.arctan 1 * (x : ℝ)) = _
    rw [hkey]
  · rw [sub_self, abs_zero]
    positivity

/-- Witness for C2 at the unit radius `1`. -/
theorem circle_circumference_witness :
    (⟨Fl.fin 1⟩ : circle).get_circumference
        = some (2 * Real.pi * ((1 : ℚ) : ℝ))
      ∧ ∃ v, (⟨Fl.fin 1⟩ : circle).get_circumference = some v
          ∧ |v - 2 * Real.pi * ((1 : ℚ) : ℝ)|
              ≤ 1e-9 * |2 * Real.pi * ((1 : ℚ) : ℝ)| :=
  circle_circumference 1 (by norm_num) ⟨Fl.fin 1⟩ (by rfl)

/-- C3: for every side `x >= 0`, a successfully constructed square's
`get_circumference()` is `4 * x` and a successfully constructed
equilateral triangle's is `3 * x`. -/
theorem square_triangle_circumference (x : ℚ) (hx : 0 ≤ x) (s : square)
    (t : equilateral_triangle) (hs : square.make (Fl.fin x) = Except.ok s)
    (ht : equilateral_triangle.make (Fl.fin x) = Except.ok t) :
    s.get_circumference = some (4 * (x : ℝ))
      ∧ t.get_circumference = some (3 * (x : ℝ)) := by
  rw [square_make_of_nonneg x hx] at hs
  rw [equilateral_triangle_make_of_nonneg x hx] at ht
  obtain rfl := (Except.ok.injEq _ _).mp hs
  obtain rfl := (Except.ok.injEq _ _).mp ht
  exact ⟨rfl, rfl⟩

/-- Witness for C3 at the unit side `1`. -/
theorem square_triangle_circumference_witness :
    (⟨Fl.fin 1⟩ : square).get_circumference = some (4 * ((1 : ℚ) : ℝ))
      ∧ (⟨Fl.fin 1⟩ : equilateral_triangle).get_circumference
          = some (3 * ((1 : ℚ) : ℝ)) :=
  square_triangle_circumference 1 (by norm_num) ⟨Fl.fin 1⟩ ⟨Fl.fin 1⟩
    (by rfl) (by rfl)

/-- C4: a scene's `get_circumference()` equals the left fold of its
sequence in insertion order, starting from accumulator `0.0` and adding
each contained shape's `get_circumference()` result in sequence order. -/
theorem scene_circumference_is_left_fold (sc : scene) :
    sc.get_circumference = specFoldSum (some 0) sc.shapes_ :=
  (specFoldSum_eq_foldl (some 0) sc.shapes_).symm

/-- C5: a scene containing no shapes returns exactly `0.0` from
`get_circumference()`; the call is a total function of the scene value,
so it cannot fail (and the result is a number, not NaN). -/
theorem empty_scene_circumference :
    (scene.mk []).get_circumference = some 0 := rfl

/-- C6: `add_shape` appends the given shape and never fails (it is a total
function of the scene and shape values): the sequence length grows by
exactly one, every previously stored element keeps its value and its
position, and the added shape is the new last element. -/
theorem add_shape_appends (sc : scene) (s : shape) :
    (sc.add_shape s).shapes_.length = sc.shapes_.length + 1
      ∧ (∀ i, i < sc.shapes_.length →
          (sc.add_shape s).shapes_[i]? = sc.shapes_[i]?)
      ∧ (sc.add_shape s).shapes_.getLast? = some s := by
  refine ⟨by simp [scene.add_shape], fun i hi => ?_, ?_⟩
  · simp [scene.add_shape, List.getElem?_append, hi]
  · simp [scene.add_shape]

/-- Witness for C6: appending a unit circle to a scene holding one square
of side 2 keeps the square at position 0. -/
theorem add_shape_appends_witness :
    ((scene.mk [shape.sq ⟨Fl.fin 2⟩]).add_shape
        (shape.circ ⟨Fl.fin 1⟩)).shapes_[0]?
      = (scene.mk [shape.sq ⟨Fl.fin 2⟩]).shapes_[0]? :=
  (add_shape_appends ⟨[shape.sq ⟨Fl.fin 2⟩]⟩
    (shape.circ ⟨Fl.fin 1⟩)).2.1 0 (by decide)

/-- C7: each of the three constructors succeeds when the supplied
dimension is NaN, because the validation rejects only values that compare
strictly less than 0 and every comparison with NaN is false; the
resulting shape's `get_circumference()` is NaN. -/
theorem nan_construction :
    circle.make Fl.nan = Except.ok ⟨Fl.nan⟩
      ∧ square.make Fl.nan = Except.ok ⟨Fl.nan⟩
      ∧ equilateral_triangle.make Fl.nan = Except.ok ⟨Fl.nan⟩
      ∧ (shape.circ ⟨Fl.nan⟩).get_circumference = none
      ∧ (shape.sq ⟨Fl.nan⟩).get_circumference = none
      ∧ (shape.tri ⟨Fl.nan⟩).get_circumference = none :=
  ⟨rfl, rfl, rfl, rfl, rfl, rfl⟩

/-- C8: executing `get_circumference()` twice in succession on the same
shape, or on the same scene with no intervening `add_shape`, yields
identical results, and neither call changes the shape's or the scene's
state (the method bodies only read). -/
theorem circumference_idempotent (s : shape) (sc : scene) :
    s.getCircRun.1 = s.getCircRun.2.getCircRun.1
      ∧ s.getCircRun.2 = s
      ∧ sc.getCircRun.1 = sc.getCircRun.2.getCircRun.1
      ∧ sc.getCircRun.2 = sc :=
  ⟨rfl, rfl, rfl, rfl⟩

/-- C9: filling two scenes with the same shapes in two different orders
(the two sequences are permutations of one another) yields equal sums; in
this idealised real-valued model the sums are exactly equal, hence in
particular within any numerical tolerance. -/
theorem sum_order_independent (l1 l2 : List shape) (hp : l1.Perm l2) :
    (scene.mk l1).get_circumference = (scene.mk l2).get_circumference := by
  have := accum_rightCommutative
  exact List.Perm.foldl_eq hp (some 0)

/-- Witness for C9: a unit circle and a unit square inserted in the two
possible orders give the same scene sum. -/
theorem sum_order_independent_witness :
    (scene.mk [shape.circ ⟨Fl.fin 1⟩,
        shape.sq ⟨Fl.fin 1⟩]).get_circumference
      = (scene.mk [shape.sq ⟨Fl.fin 1⟩,
          shape.circ ⟨Fl.fin 1⟩]).get_circumference :=
  sum_order_independent _ _
    (List.Perm.swap (shape.sq ⟨Fl.fin 1⟩) (shape.circ ⟨Fl.fin 1⟩) [])

/-- C10: adding the same (immutable) shape to two different scenes and
querying each independently: each scene's sum is its previous sum plus
the very same contribution `x.get_circumference`, so both scenes observe
the same contribution from the shared shape. -/
theorem shared_shape_contribution (sc1 sc2 : scene) (x : shape) :
    (sc1.add_shape x).get_circumference
        = addFl sc1.get_circumference x.get_circumference
      ∧ (sc2.add_shape x).get_circumference
        = addFl sc2.get_circumference x.get_circumference := by
  constructor <;>
    simp [scene.add_shape, scene.get_circumference, List.foldl_append]

end geo
